import Mathlib

/-!
Shallow embedding of the core of `mxssl/dns-over-tls-proxy` (src/main.go): the
query dispatcher `ServeDNS`, the upstream resolution function `resolveOverTLS`,
and the in-memory answer cache `inmem`.  Wall-clock time is modelled as a
single integer instant (seconds) per call; Go `uint32` values are represented
as `Nat`, and the one narrowing conversion in the source
(`uint32(expr.Sub(time.Now()).Seconds())`, line 161) is modelled with
`% 4294967296`.  Network effects (the upstream TLS exchange, the reply write)
are passed in, respectively recorded, explicitly.
-/

namespace DnsOverTlsProxy

/-- Claim data type `Answer` (src/main.go lines 22-25): a DNS A answer holding
the address string and the TTL in seconds. -/
structure Answer where
  ip : String
  ttl : Nat
  deriving Repr, DecidableEq

/-- Dynamically typed value stored in the go-cache store.  The store holds Go
`interface` values; `vAnswer` is the only kind this program ever stores
(src/main.go line 195), while `vOther` stands for a value of any other dynamic
type, needed to state what the type assertion `mem.(Answer)` (line 159) would
do on such a value. -/
inductive CacheValue where
  | vAnswer (a : Answer)
  | vOther (tag : String)
  deriving Repr, DecidableEq

/-- Go type assertion `mem.(Answer)` (src/main.go line 159): `none` models a
run-time panic on a value of another dynamic type. -/
def CacheValue.asAnswer : CacheValue → Option Answer
  | .vAnswer a => some a
  | .vOther _ => none

/-- Modelled from the spec: a Cache Entry of the Answer Cache (spec section 3;
the go-cache implementation behind `inmem` is not under src/).  Invariant per
the spec: expiration = insertion timestamp + original TTL seconds. -/
structure CacheEntry where
  value : CacheValue
  insertedAt : Int
  expiration : Int
  deriving Repr, DecidableEq

/-- The in-memory cache `inmem` (src/main.go line 42), keyed by domain name. -/
abbrev Cache := List (String × CacheEntry)

/-- Lookup of the entry stored for a domain, if any. -/
def cacheLookup : Cache → String → Option CacheEntry
  | [], _ => none
  | (k, e) :: rest, d => if k = d then some e else cacheLookup rest d

/-- Removal of every entry stored for a domain (the overwrite half of `set`). -/
def cacheRemove : Cache → String → Cache
  | [], _ => []
  | (k, e) :: rest, d =>
    if k = d then cacheRemove rest d else (k, e) :: cacheRemove rest d

/-- Modelled from the spec: `set(domain, answer, ttlSeconds)` of the Answer
Cache (spec section 4.3), the `inmem.Set` call of src/main.go line 195:
inserts or overwrites the entry for the domain with
expiration = now + ttlSeconds (last-writer-wins). -/
def cacheSet (c : Cache) (domain : String) (v : CacheValue) (ttlSeconds : Nat)
    (now : Int) : Cache :=
  (domain, ⟨v, now, now + ttlSeconds⟩) :: cacheRemove c domain

/-- Modelled from the spec: the `inmem.GetWithExpiration` call of src/main.go
line 158, against the `get` contract of spec section 4.3: found is false if no
entry exists or if the computed remaining TTL (expiration − now) is ≤ 0
(treated as already expired even if not yet swept); otherwise the stored value
and its absolute expiration instant are returned. -/
def getWithExpiration (c : Cache) (domain : String) (now : Int) :
    Option (CacheValue × Int) :=
  match cacheLookup c domain with
  | none => none
  | some e => if e.expiration - now ≤ 0 then none else some (e.value, e.expiration)

/-- Modelled from the spec: `get(domain) -> (Answer, remainingTTL, found)`
(spec section 4.3), derived from `getWithExpiration` by returning the
remaining TTL (expiration − now) instead of the absolute expiration. -/
def cacheGet (c : Cache) (domain : String) (now : Int) :
    Option (CacheValue × Int) :=
  match getWithExpiration c domain now with
  | none => none
  | some (v, expr) => some (v, expr - now)

/-- Resource record of the upstream DNS response: either an A record (carrying
the rendered address `t.A.String()` and the header TTL) or a record of any
other type (src/main.go line 186 tests `in.Answer[0].(*dns.A)`). -/
inductive RR where
  | A (ip : String) (ttl : Nat)
  | other (rtype : Nat)
  deriving Repr, DecidableEq

/-- Upstream response message; only its answer section is consulted. -/
structure DnsResp where
  answer : List RR
  deriving Repr, DecidableEq

/-- Observable outcome of one `resolveOverTLS` call: the returned Go triple
(answer, useCache, err), the cache state after the call, and whether the
upstream exchange `c.Exchange` was reached. -/
structure ResolveResult where
  answer : Answer
  useCache : Bool
  err : Option String
  cache : Cache
  queriedUpstream : Bool
  deriving Repr, DecidableEq

/-- Shallow embedding of `resolveOverTLS` (src/main.go lines 153-198).  The
result of the network exchange `c.Exchange(m, dnsServer)` is passed in as
`upstream` (`Except.error` is a transport error, decided by the environment);
`now` is the wall-clock instant of the call.  A `none` result models a
run-time panic of the type assertion on the cache-hit path. -/
def resolveOverTLS (domain : String) (now : Int)
    (upstream : Except String DnsResp) (inmem : Cache) : Option ResolveResult :=
  match getWithExpiration inmem domain now with
  | some (mem, expr) =>
    match mem.asAnswer with
    | none => none
    | some a =>
      some ⟨⟨a.ip, (expr - now).toNat % 4294967296⟩, true, none, inmem, false⟩
  | none =>
    match upstream with
    | .error e =>
      some ⟨⟨"", 0⟩, false, some ("DNS query error: " ++ e), inmem, true⟩
    | .ok resp =>
      match resp.answer with
      | [] =>
        some ⟨⟨"", 0⟩, false, none,
          cacheSet inmem domain (.vAnswer ⟨"", 0⟩) 0 now, true⟩
      | .A ip ttl :: _ =>
        some ⟨⟨ip, ttl⟩, false, none,
          cacheSet inmem domain (.vAnswer ⟨ip, ttl⟩) ttl now, true⟩
      | .other _ :: _ =>
        some ⟨⟨"", 0⟩, false, some "DNS query error", inmem, true⟩

/-- Question of an inbound DNS message: name and query type, with miekg/dns
type numbering (A = 1). -/
structure Question where
  name : String
  qtype : Nat
  deriving Repr, DecidableEq

/-- Constant `dns.TypeA`. -/
def typeA : Nat := 1

/-- Constant `dns.ClassINET`. -/
def classINET : Nat := 1

/-- Answer record appended to the reply (src/main.go lines 133-140); field `a`
is `none` exactly when `net.ParseIP` yielded a nil `net.IP`. -/
structure ARecord where
  name : String
  rrtype : Nat
  rclass : Nat
  ttl : Nat
  a : Option String
  deriving Repr, DecidableEq

/-- DNS message as the handler sees it: identifier, question section, answer
section. -/
structure Msg where
  id : Nat
  question : List Question
  answer : List ARecord
  deriving Repr, DecidableEq

/-- Modelled from the spec: `msg.SetReply(r)` (miekg/dns, not under src/) —
"build a Reply template copying the originating identifier", a "response Query
mirrored from the inbound Query's identifier and question" (spec sections 3
and 4.2), with an empty answer section. -/
def setReply (r : Msg) : Msg :=
  { id := r.id, question := r.question, answer := [] }

/-- Modelled from the spec: `net.ParseIP` (Go standard library, not under
src/).  The spec relies only on the empty address string of a zero-valued
Answer parsing to the nil address (spec section 4.4c, "empty/zero address
field"); non-empty strings are kept as parsed addresses. -/
def parseIP (s : String) : Option String :=
  if s = "" then none else some s

/-- Structured log record emitted by the handler: the per-request info record,
the cache-usage info record, or an error record (`log.Println(err)`,
`log.Error`). -/
inductive LogEvent where
  | request (remoteAddr domain proto : String)
  | cacheUsage (useCache : Bool)
  | errLog (msg : String)
  deriving Repr, DecidableEq

/-- Observable outcome of one `ServeDNS` invocation: the messages passed to
`w.WriteMsg`, the log records emitted in order, and the cache state after the
call. -/
structure ServeResult where
  written : List Msg
  logs : List LogEvent
  cache : Cache
  deriving Repr, DecidableEq

/-- Shallow embedding of `Handler.ServeDNS` (src/main.go lines 104-150).
`remoteAddr` and `proto` come from `w.RemoteAddr()`; `now` and `upstream` feed
the inner `resolveOverTLS` call; a `none` result models a run-time panic.  The
error branch of `w.WriteMsg` only logs and does not depend on the message, so
the written message is recorded unconditionally. -/
def ServeDNS (remoteAddr proto : String) (r : Msg) (now : Int)
    (upstream : Except String DnsResp) (inmem : Cache) : Option ServeResult :=
  let msg := setReply r
  match r.question with
  | [] => some ⟨[], [.errLog "Not implemented yet"], inmem⟩
  | q :: _ =>
    let reqLog := LogEvent.request remoteAddr q.name proto
    if q.qtype = typeA then
      let domain := (msg.question.headD ⟨"", 0⟩).name
      match resolveOverTLS domain now upstream inmem with
      | none => none
      | some res =>
        let errLogs := match res.err with
          | some e => [LogEvent.errLog e]
          | none => []
        let reply := { msg with
          answer := msg.answer ++
            [⟨domain, typeA, classINET, res.answer.ttl, parseIP res.answer.ip⟩] }
        some ⟨[reply], reqLog :: errLogs ++ [.cacheUsage res.useCache], res.cache⟩
    else
      some ⟨[], [reqLog, .errLog "Not implemented yet"], inmem⟩

/-- Invariant of the store: every value kept in the cache is of the `Answer`
dynamic type. -/
def AllAnswers (c : Cache) : Prop :=
  ∀ p ∈ c, ∃ a, (p : String × CacheEntry).2.value = CacheValue.vAnswer a

/-- Cache states reachable by the program: the empty initial cache, and any
state produced from a reachable one by a completed `ServeDNS` invocation
(`ServeDNS` is the only code path that touches `inmem`). -/
inductive Reachable : Cache → Prop where
  | init : Reachable []
  | step {c : Cache} {ra proto : String} {r : Msg} {now : Int}
      {up : Except String DnsResp} {res : ServeResult} :
      Reachable c → ServeDNS ra proto r now up c = some res → Reachable res.cache

/-! Helper lemmas about the cache structure. -/

theorem mem_cacheRemove : ∀ {c : Cache} {d : String} {p : String × CacheEntry},
    p ∈ cacheRemove c d → p ∈ c
  | [], _, _, h => by simp [cacheRemove] at h
  | (k, e) :: rest, d, p, h => by
    by_cases hk : k = d
    · simp only [cacheRemove, if_pos hk] at h
      exact List.mem_cons_of_mem _ (mem_cacheRemove h)
    · simp only [cacheRemove, if_neg hk, List.mem_cons] at h
      rcases h with h | h
      · exact h ▸ List.mem_cons_self _ _
      · exact List.mem_cons_of_mem _ (mem_cacheRemove h)

theorem cacheLookup_mem : ∀ {c : Cache} {d : String} {e : CacheEntry},
    cacheLookup c d = some e → (d, e) ∈ c
  | [], _, _, h => by simp [cacheLookup] at h
  | (k, e') :: rest, d, e, h => by
    by_cases hk : k = d
    · simp only [cacheLookup, if_pos hk] at h
      subst hk
      exact (Option.some_inj.mp h) ▸ List.mem_cons_self _ _
    · simp only [cacheLookup, if_neg hk] at h
      exact List.mem_cons_of_mem _ (cacheLookup_mem h)

theorem allAnswers_nil : AllAnswers [] := by
  intro p hp
  simp at hp

theorem allAnswers_cacheSet {c : Cache} {d : String} {a : Answer} {ttl : Nat}
    {now : Int} (hc : AllAnswers c) :
    AllAnswers (cacheSet c d (.vAnswer a) ttl now) := by
  intro p hp
  rcases List.mem_cons.mp hp with h | h
  · exact ⟨a, by simp [h]⟩
  · exact hc p (mem_cacheRemove h)

theorem getWithExpiration_value {c : Cache} {d : String} {now : Int}
    {v : CacheValue} {expr : Int} (h : getWithExpiration c d now = some (v, expr)) :
    ∃ e : CacheEntry, cacheLookup c d = some e ∧ e.value = v := by
  cases hl : cacheLookup c d with
  | none => simp [getWithExpiration, hl] at h
  | some e =>
    simp only [getWithExpiration, hl] at h
    by_cases hle : e.expiration - now ≤ 0
    · simp [hle] at h
    · simp only [if_neg hle, Option.some_inj, Prod.mk.injEq] at h
      exact ⟨e, rfl, h.1⟩

theorem resolveOverTLS_isSome {c : Cache} (hc : AllAnswers c)
    (domain : String) (now : Int) (up : Except String DnsResp) :
    (resolveOverTLS domain now up c).isSome := by
  unfold resolveOverTLS
  cases hg : getWithExpiration c domain now with
  | some p =>
    obtain ⟨v, expr⟩ := p
    obtain ⟨e, hl, hv⟩ := getWithExpiration_value hg
    obtain ⟨a, ha⟩ := hc (domain, e) (cacheLookup_mem hl)
    have ha2 : e.value = CacheValue.vAnswer a := ha
    have hva : v = CacheValue.vAnswer a := hv ▸ ha2
    simp [hva, CacheValue.asAnswer]
  | none =>
    cases up with
    | error e => simp
    | ok resp =>
      cases hr : resp.answer with
      | nil => simp [hr]
      | cons rr rest => cases rr <;> simp [hr]

theorem resolveOverTLS_allAnswers {c : Cache} (hc : AllAnswers c)
    {domain : String} {now : Int} {up : Except String DnsResp}
    {res : ResolveResult} (h : resolveOverTLS domain now up c = some res) :
    AllAnswers res.cache := by
  unfold resolveOverTLS at h
  split at h
  · split at h
    · exact absurd h (by simp)
    · injection h with h1; rw [← h1]; exact hc
  · split at h
    · injection h with h1; rw [← h1]; exact hc
    · split at h
      · injection h with h1; rw [← h1]; exact allAnswers_cacheSet hc
      · injection h with h1; rw [← h1]; exact allAnswers_cacheSet hc
      · injection h with h1; rw [← h1]; exact hc

theorem serveDNS_allAnswers {c : Cache} (hc : AllAnswers c)
    {ra proto : String} {r : Msg} {now : Int} {up : Except String DnsResp}
    {res : ServeResult} (h : ServeDNS ra proto r now up c = some res) :
    AllAnswers res.cache := by
  unfold ServeDNS at h
  split at h
  · injection h with h1; rw [← h1]; exact hc
  · split at h
    · simp only [] at h
      split at h
      · exact absurd h (by simp)
      · rename_i rres hres
        simp only [Option.some_inj] at h
        rw [← h]
        exact resolveOverTLS_allAnswers hc hres
    · injection h with h1; rw [← h1]; exact hc

theorem reachable_allAnswers {c : Cache} (hc : Reachable c) : AllAnswers c := by
  induction hc with
  | init => exact allAnswers_nil
  | step _ hs ih => exact serveDNS_allAnswers ih hs

theorem cacheLookup_cacheSet (c : Cache) (domain : String) (v : CacheValue)
    (ttl : Nat) (t0 : Int) :
    cacheLookup (cacheSet c domain v ttl t0) domain =
      some ⟨v, t0, t0 + (ttl : Int)⟩ := by
  simp [cacheSet, cacheLookup]

theorem getWithExpiration_cacheSet (c : Cache) (domain : String)
    (v : CacheValue) (ttl : Nat) (t0 now : Int) :
    getWithExpiration (cacheSet c domain v ttl t0) domain now =
      if t0 + (ttl : Int) - now ≤ 0 then none
      else some (v, t0 + (ttl : Int)) := by
  unfold getWithExpiration
  rw [cacheLookup_cacheSet]

theorem cacheGet_cacheSet (c : Cache) (domain : String) (v : CacheValue)
    (ttl : Nat) (t0 now : Int) :
    cacheGet (cacheSet c domain v ttl t0) domain now =
      if t0 + (ttl : Int) - now ≤ 0 then none
      else some (v, t0 + (ttl : Int) - now) := by
  unfold cacheGet
  rw [getWithExpiration_cacheSet]
  by_cases hle : t0 + (ttl : Int) - now ≤ 0
  · rw [if_pos hle, if_pos hle]
  · rw [if_neg hle, if_neg hle]

theorem resolveOverTLS_error {c : Cache} {domain : String} {now : Int}
    (hmiss : getWithExpiration c domain now = none) (e : String) :
    resolveOverTLS domain now (Except.error e) c =
      some ⟨⟨"", 0⟩, false, some ("DNS query error: " ++ e), c, true⟩ := by
  simp [resolveOverTLS, hmiss]

/-! Claim theorems. -/

/-- Claim C3: on a cache miss, an upstream response received without a
transport error and containing zero answer records makes `resolveOverTLS`
write the zero-valued Answer (empty address, TTL 0) into the cache with
ttlSeconds taken from that zero-valued answer (0), and return that zero-valued
Answer with a nil error (and useCache = false). -/
theorem resolve_zero_answers_caches_zero (domain : String) (now : Int)
    (c : Cache) (hmiss : getWithExpiration c domain now = none) :
    resolveOverTLS domain now (Except.ok ⟨[]⟩) c =
      some ⟨⟨"", 0⟩, false, none,
        cacheSet c domain (.vAnswer ⟨"", 0⟩) 0 now, true⟩ := by
  simp [resolveOverTLS, hmiss]

/-- Claim C3 witness: concrete zero-answer upstream response against the empty
cache. -/
theorem resolve_zero_answers_caches_zero_witness :
    resolveOverTLS "example.com." 100 (Except.ok ⟨[]⟩) [] =
      some ⟨⟨"", 0⟩, false, none,
        cacheSet [] "example.com." (.vAnswer ⟨"", 0⟩) 0 100, true⟩ :=
  resolve_zero_answers_caches_zero "example.com." 100 [] rfl

/-- Claim C4: for an entry inserted by `set` with a given ttlSeconds, `get`
returns found = true with the remaining TTL exactly expiration − now whenever
that is positive; the remaining TTL is never negative and is strictly less
than the TTL at insertion time whenever any wall-clock time elapsed; and if
the computed remaining TTL is ≤ 0, or no entry exists at all, `get` returns
found = false. -/
theorem cacheGet_contract (c : Cache) (domain : String) (v : CacheValue)
    (ttl : Nat) (t0 now : Int) :
    (now < t0 + (ttl : Int) →
      cacheGet (cacheSet c domain v ttl t0) domain now =
          some (v, t0 + (ttl : Int) - now) ∧
        0 ≤ t0 + (ttl : Int) - now ∧
        (t0 < now → t0 + (ttl : Int) - now < (ttl : Int))) ∧
    (t0 + (ttl : Int) ≤ now →
      cacheGet (cacheSet c domain v ttl t0) domain now = none) ∧
    (cacheLookup c domain = none → cacheGet c domain now = none) := by
  refine ⟨fun hlt => ⟨?_, ?_, fun helapsed => ?_⟩, fun hge => ?_, fun habs => ?_⟩
  · rw [cacheGet_cacheSet, if_neg (by omega)]
  · omega
  · omega
  · rw [cacheGet_cacheSet, if_pos (by omega)]
  · simp [cacheGet, getWithExpiration, habs]

/-- Claim C4 witness: entry inserted at instant 0 with TTL 300, read back at
instant 5: found with remaining TTL 295 (positive and strictly below 300). -/
theorem cacheGet_contract_witness :
    cacheGet (cacheSet [] "example.com." (.vAnswer ⟨"93.184.216.34", 300⟩) 300 0)
        "example.com." 5 =
      some (.vAnswer ⟨"93.184.216.34", 300⟩, 295) := by
  have h :=
    ((cacheGet_contract [] "example.com." (.vAnswer ⟨"93.184.216.34", 300⟩)
      300 0 5).1 (by decide)).1
  simpa using h

/-- Claim C5 counterexample: with ttlSeconds = 0, `set` followed immediately
by `get` for the same domain returns found = false (the remaining TTL 0 is
treated as expired), so no address is returned at all, contradicting the
claim's universal quantification over ttlSeconds. -/
theorem cacheSet_zero_ttl_counterexample :
    cacheGet (cacheSet [] "example.com." (.vAnswer ⟨"93.184.216.34", 0⟩) 0 10)
      "example.com." 10 = none := by rfl

/-- Claim C5 (amended): for every domain, value and strictly positive
ttlSeconds, `set(domain, v, ttlSeconds)` followed immediately by
`get(domain)` returns the same stored value with remaining TTL equal to (hence
≤) the inserted ttlSeconds, and the stored entry's expiration is exactly
now + ttlSeconds. -/
theorem cacheSet_then_get (c : Cache) (domain : String) (v : CacheValue)
    (ttl : Nat) (now : Int) (h : 0 < ttl) :
    cacheGet (cacheSet c domain v ttl now) domain now = some (v, (ttl : Int)) ∧
    cacheLookup (cacheSet c domain v ttl now) domain =
      some ⟨v, now, now + (ttl : Int)⟩ := by
  constructor
  · rw [cacheGet_cacheSet, if_neg (by omega), add_sub_cancel_left]
  · simp [cacheSet, cacheLookup]

/-- Claim C5 witness: insert with TTL 300 at instant 42 and read back at the
same instant. -/
theorem cacheSet_then_get_witness :
    cacheGet (cacheSet [] "example.com." (.vAnswer ⟨"93.184.216.34", 300⟩) 300 42)
        "example.com." 42 =
      some (.vAnswer ⟨"93.184.216.34", 300⟩, 300) :=
  (cacheSet_then_get [] "example.com." (.vAnswer ⟨"93.184.216.34", 300⟩) 300 42
    (by decide)).1

/-- Claim C6: on a cache miss, a call to `resolveOverTLS` that ends in an
upstream transport error, or in a response whose first answer record is not an
A record, returns a non-nil error together with the zero-valued Answer, and
leaves the cache exactly unchanged. -/
theorem resolve_failure_preserves_cache (domain : String) (now : Int)
    (c : Cache) (hmiss : getWithExpiration c domain now = none) :
    (∀ e : String,
      resolveOverTLS domain now (Except.error e) c =
        some ⟨⟨"", 0⟩, false, some ("DNS query error: " ++ e), c, true⟩) ∧
    (∀ (rt : Nat) (rest : List RR),
      resolveOverTLS domain now (Except.ok ⟨RR.other rt :: rest⟩) c =
        some ⟨⟨"", 0⟩, false, some "DNS query error", c, true⟩) := by
  constructor
  · intro e
    simp [resolveOverTLS, hmiss]
  · intro rt rest
    simp [resolveOverTLS, hmiss]

/-- Claim C6 witness: transport failure against the empty cache leaves it
empty and reports the error. -/
theorem resolve_failure_preserves_cache_witness :
    resolveOverTLS "example.com." 7 (Except.error "connection refused") [] =
      some ⟨⟨"", 0⟩, false, some "DNS query error: connection refused", [],
        true⟩ :=
  (resolve_failure_preserves_cache "example.com." 7 [] rfl).1 "connection refused"

/-- Claim C10: when the domain is found in the cache (with an Answer-typed
value, as always holds for reachable states), `resolveOverTLS` returns the
cached answer with its TTL recomputed from the stored expiration
(uint32 truncation of expiration − now), useCache = true and a nil error, for
every possible upstream outcome — so no upstream query is issued
(queriedUpstream = false) and the cache is left exactly unchanged. -/
theorem resolve_cache_hit (domain : String) (now expr : Int) (a : Answer)
    (c : Cache)
    (hhit : getWithExpiration c domain now = some (.vAnswer a, expr)) :
    ∀ up : Except String DnsResp,
      resolveOverTLS domain now up c =
        some ⟨⟨a.ip, (expr - now).toNat % 4294967296⟩, true, none, c, false⟩ := by
  intro up
  simp [resolveOverTLS, hhit, CacheValue.asAnswer]

/-- Claim C10 witness: a one-entry cache holding an answer that expires at
instant 300, read at instant 5: the hit returns the stored address with TTL
295, ignoring an upstream that would fail. -/
theorem resolve_cache_hit_witness :
    resolveOverTLS "example.com." 5 (Except.error "unused")
        [("example.com.", ⟨.vAnswer ⟨"93.184.216.34", 300⟩, 0, 300⟩)] =
      some ⟨⟨"93.184.216.34", 295⟩, true, none,
        [("example.com.", ⟨.vAnswer ⟨"93.184.216.34", 300⟩, 0, 300⟩)], false⟩ :=
  resolve_cache_hit "example.com." 5 300 ⟨"93.184.216.34", 300⟩
    [("example.com.", ⟨.vAnswer ⟨"93.184.216.34", 300⟩, 0, 300⟩)] rfl
    (Except.error "unused")

/-- Claim C1 counterexample: an A-type query whose upstream resolution fails
with a transport error.  The dispatcher does log the error, but the reply it
writes back carries ONE answer record (the zero-valued one, TTL 0, nil
address), not zero answer records as claimed. -/
theorem serveDNS_error_one_answer_counterexample :
    ServeDNS "203.0.113.9:33210" "udp" ⟨7, [⟨"example.com.", 1⟩], []⟩ 0
        (Except.error "connection refused") [] =
      some ⟨[⟨7, [⟨"example.com.", 1⟩], [⟨"example.com.", 1, 1, 0, none⟩]⟩],
        [.request "203.0.113.9:33210" "example.com." "udp",
         .errLog "DNS query error: connection refused", .cacheUsage false],
        []⟩ := by rfl

/-- Claim C1 (amended): for every inbound query whose first question is of the
A type and misses the cache, if the upstream resolution fails the dispatcher
logs the error and sends a reply that carries exactly one answer record — the
zero-valued one, with TTL 0 and the nil (unparseable empty-string) address —
rather than zero answer records. -/
theorem serveDNS_upstream_error_reply (ra proto : String) (r : Msg)
    (q : Question) (qs : List Question) (now : Int) (e : String) (c : Cache)
    (hq : r.question = q :: qs) (hA : q.qtype = typeA)
    (hmiss : getWithExpiration c q.name now = none) :
    ServeDNS ra proto r now (Except.error e) c =
      some ⟨[⟨r.id, r.question, [⟨q.name, typeA, classINET, 0, none⟩]⟩],
        [.request ra q.name proto,
         .errLog ("DNS query error: " ++ e), .cacheUsage false], c⟩ := by
  simp [ServeDNS, setReply, hq, hA, resolveOverTLS_error hmiss, parseIP]

/-- Claim C1 witness: concrete upstream timeout on a first-time A query. -/
theorem serveDNS_upstream_error_reply_witness :
    ServeDNS "198.51.100.7:53000" "tcp" ⟨3, [⟨"example.org.", 1⟩], []⟩ 5
        (Except.error "timeout") [] =
      some ⟨[⟨3, [⟨"example.org.", 1⟩], [⟨"example.org.", 1, 1, 0, none⟩]⟩],
        [.request "198.51.100.7:53000" "example.org." "tcp",
         .errLog "DNS query error: timeout", .cacheUsage false], []⟩ :=
  serveDNS_upstream_error_reply "198.51.100.7:53000" "tcp"
    ⟨3, [⟨"example.org.", 1⟩], []⟩ ⟨"example.org.", 1⟩ [] 5 "timeout" []
    rfl rfl rfl

/-- Claim C2 counterexample: an inbound query whose only (hence first)
question is of the AAAA type (28).  The dispatcher logs, but no reply at all
is written back to the client (`w.WriteMsg` is never reached), contradicting
the claim that a reply with zero answers is sent. -/
theorem serveDNS_nonA_counterexample :
    ServeDNS "203.0.113.9:33210" "udp" ⟨9, [⟨"example.com.", 28⟩], []⟩ 0
        (Except.error "unused") [] =
      some ⟨[], [.request "203.0.113.9:33210" "example.com." "udp",
        .errLog "Not implemented yet"], []⟩ := by rfl

/-- Claim C2 (amended): for every inbound query whose FIRST question's type is
not the A type, the dispatcher does not crash, logs an error ("Not implemented
yet"), sends no reply at all, and leaves the cache unchanged.  (If only a
later question is non-A, the first being A, the dispatcher instead serves the
A path and does send a reply.) -/
theorem serveDNS_nonA_no_reply (ra proto : String) (r : Msg) (q : Question)
    (qs : List Question) (now : Int) (up : Except String DnsResp) (c : Cache)
    (hq : r.question = q :: qs) (hA : q.qtype ≠ typeA) :
    ServeDNS ra proto r now up c =
      some ⟨[], [.request ra q.name proto, .errLog "Not implemented yet"],
        c⟩ := by
  simp [ServeDNS, hq, hA]

/-- Claim C2 witness: concrete AAAA query. -/
theorem serveDNS_nonA_no_reply_witness :
    ServeDNS "198.51.100.7:53000" "tcp" ⟨4, [⟨"example.org.", 28⟩], []⟩ 5
        (Except.error "unused") [] =
      some ⟨[], [.request "198.51.100.7:53000" "example.org." "tcp",
        .errLog "Not implemented yet"], []⟩ :=
  serveDNS_nonA_no_reply "198.51.100.7:53000" "tcp"
    ⟨4, [⟨"example.org.", 28⟩], []⟩ ⟨"example.org.", 28⟩ [] 5
    (Except.error "unused") [] rfl (by decide)

/-- Claim C7: for every inbound message with zero questions the handler sends
no reply to the client, logs the event ("Not implemented yet"), does not touch
the cache, and does not crash (the invocation completes with a result). -/
theorem serveDNS_no_question (ra proto : String) (r : Msg) (now : Int)
    (up : Except String DnsResp) (c : Cache) (h : r.question = []) :
    ServeDNS ra proto r now up c =
      some ⟨[], [.errLog "Not implemented yet"], c⟩ := by
  simp [ServeDNS, h]

/-- Claim C7 witness: concrete question-less message. -/
theorem serveDNS_no_question_witness :
    ServeDNS "203.0.113.9:33210" "udp" ⟨11, [], []⟩ 0
        (Except.error "unused") [] =
      some ⟨[], [.errLog "Not implemented yet"], []⟩ :=
  serveDNS_no_question "203.0.113.9:33210" "udp" ⟨11, [], []⟩ 0
    (Except.error "unused") [] rfl

/-- Claim C8: the reply template built by the dispatcher mirrors the inbound
query's message identifier and question section with an empty answer section,
and every reply actually written back mirrors that identifier and question
section and carries at most one answer record. -/
theorem serveDNS_reply_mirrors (ra proto : String) (r : Msg) (now : Int)
    (up : Except String DnsResp) (c : Cache) :
    (setReply r).id = r.id ∧ (setReply r).question = r.question ∧
    (setReply r).answer = [] ∧
    ∀ res, ServeDNS ra proto r now up c = some res →
      ∀ m ∈ res.written, m.id = r.id ∧ m.question = r.question ∧
        m.answer.length ≤ 1 := by
  refine ⟨rfl, rfl, rfl, fun res hres m hm => ?_⟩
  unfold ServeDNS at hres
  split at hres
  · injection hres with h1
    rw [← h1] at hm
    simp at hm
  · split at hres
    · simp only [] at hres
      split at hres
      · exact absurd hres (by simp)
      · rename_i rr hrr
        simp only [Option.some_inj] at hres
        rw [← hres] at hm
        simp at hm
        subst hm
        exact ⟨rfl, rfl, by simp [setReply]⟩
    · injection hres with h1
      rw [← h1] at hm
      simp at hm

/-- Claim C8 witness: a successfully served A query; the one written reply
mirrors identifier 5 and the question and carries one answer record. -/
theorem serveDNS_reply_mirrors_witness :
    (⟨5, [⟨"example.com.", 1⟩],
        [⟨"example.com.", 1, 1, 300, some "93.184.216.34"⟩]⟩ : Msg).id = 5 ∧
    (⟨5, [⟨"example.com.", 1⟩],
        [⟨"example.com.", 1, 1, 300, some "93.184.216.34"⟩]⟩ : Msg).question =
      [⟨"example.com.", 1⟩] ∧
    (⟨5, [⟨"example.com.", 1⟩],
        [⟨"example.com.", 1, 1, 300, some "93.184.216.34"⟩]⟩ : Msg).answer.length
      ≤ 1 := by
  have h := (serveDNS_reply_mirrors "203.0.113.9:33210" "udp"
      ⟨5, [⟨"example.com.", 1⟩], []⟩ 0
      (Except.ok ⟨[RR.A "93.184.216.34" 300]⟩) []).2.2.2
  exact h
    ⟨[⟨5, [⟨"example.com.", 1⟩],
        [⟨"example.com.", 1, 1, 300, some "93.184.216.34"⟩]⟩],
      [.request "203.0.113.9:33210" "example.com." "udp", .cacheUsage false],
      [("example.com.", ⟨.vAnswer ⟨"93.184.216.34", 300⟩, 0, 300⟩)]⟩
    rfl _ (List.mem_singleton.mpr rfl)

/-- Claim C9: the only write into the store is of an `Answer`-typed value, so
for every cache state reachable by the program the type assertion
`mem.(Answer)` on the cache-hit path cannot panic: `resolveOverTLS` always
completes with a result. -/
theorem assertion_never_panics (c : Cache) (hc : Reachable c)
    (domain : String) (now : Int) (up : Except String DnsResp) :
    (resolveOverTLS domain now up c).isSome :=
  resolveOverTLS_isSome (reachable_allAnswers hc) domain now up

/-- Claim C9 witness: the initial (empty, reachable) cache state. -/
theorem assertion_never_panics_witness :
    (resolveOverTLS "example.com." 0 (Except.error "e") []).isSome :=
  assertion_never_panics [] Reachable.init "example.com." 0 (Except.error "e")

end DnsOverTlsProxy
